import Mathlib

/-!
Verification of the runtime diagnostics and request-instrumentation core of
a small Flask HTTP service (`src/app.py`).  The Python functions are shallowly
embedded as pure Lean functions: OS/library calls that can fail are modelled
as `Option`-valued inputs (`none` = the underlying call raised), process-wide
mutable metric state is modelled as an explicit `MetricsState` record that the
request hooks transform, and request interleaving is modelled as a trace of
enter/exit events.
-/

/-! ## System sampler: `get_memory_info` -/

/-- Result of `psutil.virtual_memory()`: byte counts plus a usage percent.
`none` at the call site models the call raising an exception. -/
structure VirtualMemory where
  total : Nat
  available : Nat
  used : Nat
  percent : ℚ
deriving DecidableEq

/-- The dictionary returned by `get_memory_info`: sizes in whole megabytes. -/
structure MemoryInfo where
  total : Nat
  available : Nat
  used : Nat
  percent : ℚ
deriving DecidableEq

/-- Python's `round(b / 1024 / 1024)`: divide a byte count by 2^20 and round
half-to-even (Python's `round`), expressed over the quotient and remainder. -/
def mbRound (b : Nat) : Nat :=
  if b % 1048576 < 524288 then b / 1048576
  else if 524288 < b % 1048576 then b / 1048576 + 1
  else if b / 1048576 % 2 = 0 then b / 1048576 else b / 1048576 + 1

/-- Function `get_memory_info` from `src/app.py`: on success, byte counts are converted
to rounded megabytes and the percent is passed through; if
`psutil.virtual_memory()` raised (input `none`), the except-branch returns the
all-zero dictionary. -/
def get_memory_info (vm : Option VirtualMemory) : MemoryInfo :=
  match vm with
  | some memory =>
      { total := mbRound memory.total
        available := mbRound memory.available
        used := mbRound memory.used
        percent := memory.percent }
  | none => { total := 0, available := 0, used := 0, percent := 0 }

theorem mbRound_mono {b1 b2 : Nat} (h : b1 ≤ b2) : mbRound b1 ≤ mbRound b2 := by
  unfold mbRound
  split_ifs <;> omega

/-! ## Environment-variable redaction (`get_environment_info`) -/

/-- The sensitivity patterns from `get_environment_info`. -/
def sensitivePatterns : List String := ["SECRET", "PASSWORD", "TOKEN", "KEY"]

/-- Boolean substring test on character lists (Python's `in` on strings). -/
def listContains (needle haystack : List Char) : Bool :=
  haystack.tails.any (fun t => needle.isPrefixOf t)

/-- The test `any(sensitive in key.upper() for sensitive in [...])`: does the
upper-cased variable name contain one of the sensitivity patterns? -/
def isSensitive (key : String) : Bool :=
  sensitivePatterns.any (fun p => listContains p.toList key.toUpper.toList)

/-- One iteration of the env-var loop: a sensitive name maps to the fixed
marker `"[HIDDEN]"`, any other name keeps its value. -/
def redactPair (kv : String × String) : String × String :=
  if isSensitive kv.1 then (kv.1, "[HIDDEN]") else kv

/-- Lexicographic `≤` on character lists, mirroring Python string order for
the `sorted` call. -/
def charListLe : List Char → List Char → Bool
  | [], _ => true
  | _ :: _, [] => false
  | a :: as, b :: bs =>
      if a < b then true else if b < a then false else charListLe as bs

/-- Python tuple order on `(name, value)` pairs, used by
`dict(sorted(env_vars.items()))`. -/
def pyPairLe (a b : String × String) : Bool :=
  if a.1.toList = b.1.toList then charListLe a.2.toList b.2.toList
  else charListLe a.1.toList b.1.toList

/-- The `environment_variables` field of `get_environment_info`: every
variable of the process environment redacted, then sorted by name. -/
def environment_variables (env : List (String × String)) : List (String × String) :=
  (env.map redactPair).mergeSort pyPairLe

theorem mem_environment_variables {env : List (String × String)}
    {kv : String × String} :
    kv ∈ environment_variables env ↔ kv ∈ env.map redactPair :=
  (List.mergeSort_perm (env.map redactPair) pyPairLe).mem_iff

/-! ## Metrics registry and request middleware -/

/-- Label triple of the `flask_app_requests_total` counter:
(method, endpoint, status). -/
abbrev ReqKey : Type := String × String × Nat

/-- A labelled HTTP response as seen by `after_request`. -/
structure Response where
  status_code : Nat
deriving DecidableEq

/-- The per-request context: Flask's `request` object restricted to what the
middleware touches.  `endpoint` is `none` when no route matched;
`start_time` is `none` when `before_request` never ran for this request. -/
structure RequestCtx where
  method : String
  endpoint : Option String
  start_time : Option ℚ
deriving DecidableEq

/-- Increment a labelled prometheus counter: bump the existing child or create
it at 1. -/
def incCounter (k : ReqKey) : List (ReqKey × Nat) → List (ReqKey × Nat)
  | [] => [(k, 1)]
  | (k', n) :: rest =>
      if k' = k then (k', n + 1) :: rest else (k', n) :: incCounter k rest

/-- Record one observation in a labelled prometheus histogram child. -/
def observeHistogram (k : String × String) (v : ℚ) :
    List ((String × String) × List ℚ) → List ((String × String) × List ℚ)
  | [] => [(k, [v])]
  | (k', vs) :: rest =>
      if k' = k then (k', vs ++ [v]) :: rest else (k', vs) :: observeHistogram k v rest

/-- The process-wide prometheus state of `src/app.py`: the request counter,
the latency histogram, the three snapshot gauges and the in-flight gauge. -/
structure MetricsState where
  requestCount : List (ReqKey × Nat)
  requestDuration : List ((String × String) × List ℚ)
  memoryGauge : ℚ
  cpuGauge : ℚ
  uptimeGauge : ℚ
  activeRequests : Int
deriving DecidableEq

/-- The registry as initialized at process start: no counter or histogram
children yet, all gauges at 0. -/
def initialMetrics : MetricsState :=
  { requestCount := [], requestDuration := [], memoryGauge := 0, cpuGauge := 0
    uptimeGauge := 0, activeRequests := 0 }

/-- Hook `before_request` from `src/app.py`: stamp `request.start_time` and
increment the active-requests gauge. -/
def before_request (now : ℚ) (req : RequestCtx) (s : MetricsState) :
    RequestCtx × MetricsState :=
  ({ req with start_time := some now },
   { s with activeRequests := s.activeRequests + 1 })

/-- Expression `request.endpoint or "unknown"`: Python's `or` falls through on `None`
and on the empty string. -/
def endpointLabel (e : Option String) : String :=
  match e with
  | some s => if s = "" then "unknown" else s
  | none => "unknown"

/-- Hook `after_request` from `src/app.py`: when a start time was recorded,
observe the duration and bump the request counter (labelled with the exact
numeric status code); in every case decrement the active-requests gauge and
pass the response through unchanged. -/
def after_request (now : ℚ) (req : RequestCtx) (response : Response)
    (s : MetricsState) : Response × MetricsState :=
  let s1 :=
    match req.start_time with
    | some t =>
        let duration := now - t
        let endpoint := endpointLabel req.endpoint
        let s' := { s with
          requestDuration := observeHistogram (req.method, endpoint) duration s.requestDuration }
        { s' with
          requestCount := incCounter (req.method, endpoint, response.status_code) s'.requestCount }
    | none => s
  (response, { s1 with activeRequests := s1.activeRequests - 1 })

/-! ## Interleaved requests as an event trace

Within one worker, requests run concurrently; each request contributes one
`enter` event (its `before_request` hook) and, later, one `exit` event (its
`after_request` hook).  The trace records the order in which the hooks hit
the shared gauge. -/

/-- One gauge-touching hook invocation of some request, identified by a
request id. -/
inductive Ev where
  | enter (id : Nat)
  | exit (id : Nat)
deriving DecidableEq

/-- The value of the active-requests gauge after replaying a trace, starting
from `g`: `enter` is `ACTIVE_REQUESTS.inc()`, `exit` is
`ACTIVE_REQUESTS.dec()`. -/
def traceGauge (g : Int) : List Ev → Int
  | [] => g
  | Ev.enter _ :: rest => traceGauge (g + 1) rest
  | Ev.exit _ :: rest => traceGauge (g - 1) rest

/-- Ids of the requests that have entered, in trace order. -/
def enterIds : List Ev → List Nat
  | [] => []
  | Ev.enter i :: rest => i :: enterIds rest
  | Ev.exit _ :: rest => enterIds rest

/-- Ids of the requests that have exited, in trace order. -/
def exitIds : List Ev → List Nat
  | [] => []
  | Ev.enter _ :: rest => exitIds rest
  | Ev.exit i :: rest => i :: exitIds rest

/-- Well-formedness of a trace relative to the requests already entered and
exited: a request enters at most once, and exits only after entering and at
most once.  This is exactly what the paired hooks guarantee: each request's
`after_request` runs after its `before_request`, once. -/
def wfFrom (entered exited : List Nat) : List Ev → Bool
  | [] => true
  | Ev.enter i :: rest => !(entered.contains i) && wfFrom (i :: entered) exited rest
  | Ev.exit i :: rest =>
      entered.contains i && !(exited.contains i) && wfFrom entered (i :: exited) rest

/-- A trace of hook events produced by a set of requests, each pairing its
enter with a later exit. -/
def WfTrace (tr : List Ev) : Bool := wfFrom [] [] tr

theorem traceGauge_eq (tr : List Ev) :
    ∀ g : Int, traceGauge g tr = g + (enterIds tr).length - (exitIds tr).length := by
  induction tr with
  | nil => intro g; simp [traceGauge, enterIds, exitIds]
  | cons e rest ih =>
      intro g
      cases e with
      | enter i =>
          simp only [traceGauge, enterIds, exitIds, List.length_cons, ih]
          push_cast
          ring
      | exit i =>
          simp only [traceGauge, enterIds, exitIds, List.length_cons, ih]
          push_cast
          ring

theorem wfFrom_nonneg (tr : List Ev) :
    ∀ (entered exited : List Nat), wfFrom entered exited tr = true →
      exited ⊆ entered → entered.Nodup → exited.Nodup →
      ∀ n, 0 ≤ traceGauge ((entered.length : Int) - exited.length) (tr.take n) := by
  induction tr with
  | nil =>
      intro entered exited _ hsub hne hxe n
      have hlen : exited.length ≤ entered.length := (hxe.subperm hsub).length_le
      simp only [List.take_nil, traceGauge]
      omega
  | cons e rest ih =>
      intro entered exited hwf hsub hne hxe n
      have hlen : exited.length ≤ entered.length := (hxe.subperm hsub).length_le
      cases n with
      | zero =>
          simp only [List.take_zero, traceGauge]
          omega
      | succ m =>
          cases e with
          | enter i =>
              simp only [wfFrom, Bool.and_eq_true, Bool.not_eq_true'] at hwf
              obtain ⟨hfresh, hwf'⟩ := hwf
              have hfresh' : i ∉ entered := by
                simpa using hfresh
              have := ih (i :: entered) exited hwf'
                (fun a ha => List.mem_cons_of_mem i (hsub ha))
                (List.nodup_cons.mpr ⟨hfresh', hne⟩) hxe m
              simp only [List.take_succ_cons, traceGauge]
              simp only [List.length_cons] at this
              convert this using 2
              push_cast
              ring
          | exit i =>
              simp only [wfFrom, Bool.and_eq_true, Bool.not_eq_true'] at hwf
              obtain ⟨⟨hin, hnix⟩, hwf'⟩ := hwf
              have hin' : i ∈ entered := by simpa using hin
              have hnix' : i ∉ exited := by simpa using hnix
              have := ih entered (i :: exited) hwf'
                (fun a ha => by
                  rcases List.mem_cons.mp ha with h | h
                  · exact h ▸ hin'
                  · exact hsub h)
                hne (List.nodup_cons.mpr ⟨hnix', hxe⟩) m
              simp only [List.take_succ_cons, traceGauge]
              simp only [List.length_cons] at this
              convert this using 2
              push_cast
              ring

theorem wfFrom_ids (tr : List Ev) :
    ∀ (entered exited : List Nat), wfFrom entered exited tr = true →
      entered.Nodup → exited.Nodup → exited ⊆ entered →
      (entered ++ enterIds tr).Nodup ∧ (exited ++ exitIds tr).Nodup ∧
        (exited ++ exitIds tr) ⊆ (entered ++ enterIds tr) := by
  induction tr with
  | nil =>
      intro entered exited _ hne hxe hsub
      refine ⟨by simpa [enterIds], by simpa [exitIds], ?_⟩
      intro a ha
      simp only [exitIds, List.append_nil] at ha
      simp only [enterIds, List.append_nil]
      exact hsub ha
  | cons e rest ih =>
      intro entered exited hwf hne hxe hsub
      cases e with
      | enter i =>
          simp only [wfFrom, Bool.and_eq_true, Bool.not_eq_true'] at hwf
          obtain ⟨hfresh, hwf'⟩ := hwf
          have hfresh' : i ∉ entered := by simpa using hfresh
          obtain ⟨h1, h2, h3⟩ := ih (i :: entered) exited hwf'
            (List.nodup_cons.mpr ⟨hfresh', hne⟩) hxe
            (fun a ha => List.mem_cons_of_mem i (hsub ha))
          refine ⟨?_, by simpa [exitIds] using h2, ?_⟩
          · have : (i :: (entered ++ enterIds rest)).Nodup := by
              simpa using h1
            simpa [enterIds] using (List.perm_middle.symm.nodup this)
          · intro a ha
            simp only [exitIds] at ha
            have := h3 ha
            simp only [enterIds]
            exact List.perm_middle.symm.subset (by simpa using this)
      | exit i =>
          simp only [wfFrom, Bool.and_eq_true, Bool.not_eq_true'] at hwf
          obtain ⟨⟨hin, hnix⟩, hwf'⟩ := hwf
          have hin' : i ∈ entered := by simpa using hin
          have hnix' : i ∉ exited := by simpa using hnix
          obtain ⟨h1, h2, h3⟩ := ih entered (i :: exited) hwf'
            hne (List.nodup_cons.mpr ⟨hnix', hxe⟩)
            (fun a ha => by
              rcases List.mem_cons.mp ha with h | h
              · exact h ▸ hin'
              · exact hsub h)
          refine ⟨by simpa [enterIds] using h1, ?_, ?_⟩
          · have : (i :: (exited ++ exitIds rest)).Nodup := by simpa using h2
            simpa [exitIds] using (List.perm_middle.symm.nodup this)
          · intro a ha
            simp only [exitIds] at ha
            have ha' : a ∈ i :: exited ++ exitIds rest := List.perm_middle.subset ha
            have := h3 (by simpa using ha')
            simpa [enterIds] using this

/-! ## Routing and the 404 handler -/

/-- An inbound HTTP request as the handlers see it. -/
structure HttpRequest where
  method : String
  path : String
deriving DecidableEq

/-- A handler response body: the app produces HTML pages, JSON objects
(flattened here to their string-valued fields) and the plain-text metrics
exposition. -/
inductive Body where
  | html (content : String)
  | json (fields : List (String × String))
  | text (content : String)
deriving DecidableEq

/-- A full response: status code plus body. -/
structure HttpResponse where
  status_code : Nat
  body : Body
deriving DecidableEq

/-- Look up a field of a JSON body. -/
def jsonField (b : Body) (k : String) : Option String :=
  match b with
  | Body.json fields => fields.lookup k
  | _ => none

/-- The URL map built by the four `@app.route` decorators: a path maps to its
endpoint name, or to `none` when no route matches. -/
def routeEndpoint (path : String) : Option String :=
  if path = "/healthcheck.html" then some "health_check"
  else if path = "/" then some "index"
  else if path = "/api/env" then some "api_env"
  else if path = "/metrics" then some "metrics"
  else none

/-- Handler `not_found` from `src/app.py`, the `@app.errorhandler(404)` handler:
a JSON body carrying the fixed error string, the requested path and a
timestamp, with status 404. -/
def not_found (req : HttpRequest) (timestamp : String) : HttpResponse :=
  { status_code := 404
    body := Body.json
      [("error", "Not Found"), ("path", req.path), ("timestamp", timestamp)] }

/-- Flask's dispatch step: a matched path runs its endpoint's handler, an
unmatched path is answered by the registered 404 handler. -/
def dispatch (handlers : String → HttpRequest → HttpResponse)
    (timestamp : String) (req : HttpRequest) : HttpResponse :=
  match routeEndpoint req.path with
  | some e => handlers e req
  | none => not_found req timestamp

/-! ## Metrics exposition (`generate_latest` and the `/metrics` handler) -/

/-- Decimal rendering of a rational metric value. -/
def ratStr (q : ℚ) : String :=
  if q.den = 1 then toString q.num else toString q.num ++ "/" ++ toString q.den

/-- Render one `label="value"` pair. -/
def labelPairStr (kv : String × String) : String :=
  kv.1 ++ "=\"" ++ kv.2 ++ "\""

/-- Render a label set in its fixed key order. -/
def labelSetStr (pairs : List (String × String)) : String :=
  "\x7b" ++ String.intercalate "," (pairs.map labelPairStr) ++ "\x7d"

/-- Exposition lines of the request counter, one per child. -/
def requestCountLines (s : MetricsState) : List String :=
  s.requestCount.map (fun kv =>
    "flask_app_requests_total" ++
      labelSetStr
        [("method", kv.1.1), ("endpoint", kv.1.2.1), ("status", toString kv.1.2.2)] ++
      " " ++ toString kv.2)

/-- Exposition lines of the latency histogram: per child, the observation
count and sum. -/
def requestDurationLines (s : MetricsState) : List String :=
  s.requestDuration.flatMap (fun kv =>
    let ls := labelSetStr [("method", kv.1.1), ("endpoint", kv.1.2)]
    ["flask_app_request_duration_seconds_count" ++ ls ++ " " ++ toString kv.2.length,
     "flask_app_request_duration_seconds_sum" ++ ls ++ " " ++ ratStr kv.2.sum])

/-- Serializer `generate_latest`: serialize the whole registry, family by family, in
registration order, reading but never mutating the registry. -/
def generate_latest (s : MetricsState) : List String :=
  requestCountLines s ++ requestDurationLines s ++
    ["flask_app_memory_usage_bytes " ++ ratStr s.memoryGauge,
     "flask_app_cpu_usage_percent " ++ ratStr s.cpuGauge,
     "flask_app_uptime_seconds " ++ ratStr s.uptimeGauge,
     "flask_app_active_requests " ++ toString s.activeRequests]

/-- A scrape of the registry: the exposition text together with the registry
state after the scrape. -/
def exportMetrics (s : MetricsState) : List String × MetricsState :=
  (generate_latest s, s)

/-- A fresh process sample taken by the `/metrics` handler (`none` models the
`psutil` calls raising). -/
structure ProcSample where
  rss : ℚ
  cpu_percent : ℚ
  uptime : ℚ
deriving DecidableEq

/-- The `/metrics` route handler: refresh the three snapshot gauges from a
fresh process sample (skipped, with a warning, if sampling raised), then
export. -/
def metricsHandler (sample : Option ProcSample) (s : MetricsState) :
    List String × MetricsState :=
  let s1 :=
    match sample with
    | some p =>
        { s with memoryGauge := p.rss, cpuGauge := p.cpu_percent, uptimeGauge := p.uptime }
    | none => s
  exportMetrics s1

/-- The status class of a response status code (`4` for the 4xx family, and
so on), the granularity the specification claims for the counter's status
label. -/
def statusClass (code : Nat) : Nat := code / 100

/-! ## Claims -/

/-- C3: `get_memory_info` never lets a failure escape: if
`psutil.virtual_memory()` raised it returns the all-zero degraded value, and
on success it returns the populated struct built from the sample. -/
theorem get_memory_info_total_function :
    get_memory_info none = { total := 0, available := 0, used := 0, percent := 0 } ∧
    ∀ m : VirtualMemory,
      get_memory_info (some m) =
        { total := mbRound m.total, available := mbRound m.available,
          used := mbRound m.used, percent := m.percent } :=
  ⟨rfl, fun _ => rfl⟩

/-- C4: for every successful memory sample with `used ≤ total` (in bytes) and
a percent within [0, 100], the returned stats satisfy `used ≤ total` in
rounded megabytes and `0 ≤ percent ≤ 100`. -/
theorem get_memory_info_invariant (m : VirtualMemory) (h1 : m.used ≤ m.total)
    (h2 : 0 ≤ m.percent) (h3 : m.percent ≤ 100) :
    (get_memory_info (some m)).used ≤ (get_memory_info (some m)).total ∧
    0 ≤ (get_memory_info (some m)).percent ∧
    (get_memory_info (some m)).percent ≤ 100 :=
  ⟨mbRound_mono h1, h2, h3⟩

/-- The mocked `psutil.virtual_memory()` sample of the unit test:
8GB total, 4GB available, 4GB used, 50 percent. -/
def mockMemory : VirtualMemory :=
  { total := 8589934592, available := 4294967296, used := 4294967296, percent := 50 }

/-- Witness for C4 at the mocked 8GB/4GB sample. -/
theorem get_memory_info_invariant_witness :
    (get_memory_info (some mockMemory)).used ≤ (get_memory_info (some mockMemory)).total ∧
    0 ≤ (get_memory_info (some mockMemory)).percent ∧
    (get_memory_info (some mockMemory)).percent ≤ 100 :=
  get_memory_info_invariant mockMemory (by norm_num [mockMemory])
    (by norm_num [mockMemory]) (by norm_num [mockMemory])

/-- C7: on the mocked sample of 8589934592 total / 4294967296 available /
4294967296 used bytes and percent 50, `get_memory_info` returns exactly
8192 / 4096 / 4096 MB and percent 50. -/
theorem get_memory_info_mock_exact :
    get_memory_info (some mockMemory) =
      { total := 8192, available := 4096, used := 4096, percent := 50 } := by
  decide

/-- C2: every environment variable whose name contains SECRET, PASSWORD,
TOKEN or KEY as a case-insensitive substring appears in the assembled
snapshot's variable mapping with the fixed marker `"[HIDDEN]"` — any value it
appears with is that marker — while every other variable appears with its
real value. -/
theorem environment_variables_redaction (env : List (String × String))
    (k v : String) (hmem : (k, v) ∈ env) :
    ((k, if isSensitive k then "[HIDDEN]" else v) ∈ environment_variables env) ∧
    (isSensitive k = true →
      ∀ v' : String, (k, v') ∈ environment_variables env → v' = "[HIDDEN]") := by
  constructor
  · rw [mem_environment_variables]
    refine List.mem_map.mpr ⟨(k, v), hmem, ?_⟩
    by_cases h : isSensitive k <;> simp [redactPair, h]
  · intro hs v' hv'
    rw [mem_environment_variables] at hv'
    obtain ⟨⟨a, b⟩, _, heq⟩ := List.mem_map.mp hv'
    by_cases h : isSensitive a
    · simp only [redactPair, h, if_pos] at heq
      exact (Prod.mk.injEq _ _ _ _ ▸ heq).2.symm
    · simp only [redactPair, h] at heq
      obtain ⟨h1, h2⟩ := Prod.mk.injEq _ _ _ _ ▸ heq
      subst h1
      simp [h] at hs

/-- Witness for C2 on a two-variable environment containing one sensitive
name. -/
theorem environment_variables_redaction_witness :
    (("API_TOKEN", if isSensitive "API_TOKEN" then "[HIDDEN]" else "s3cr3t") ∈
      environment_variables [("PATH", "/usr/bin"), ("API_TOKEN", "s3cr3t")]) ∧
    (isSensitive "API_TOKEN" = true →
      ∀ v' : String,
        ("API_TOKEN", v') ∈ environment_variables [("PATH", "/usr/bin"), ("API_TOKEN", "s3cr3t")] →
        v' = "[HIDDEN]") :=
  environment_variables_redaction [("PATH", "/usr/bin"), ("API_TOKEN", "s3cr3t")]
    "API_TOKEN" "s3cr3t" (by decide)

/-- C5 counterexample: a 404 request (no matched route) with a recorded start
time is recorded under the route label `"unknown"`, not the claimed
`"unmatched"` — no sample carries the label `"unmatched"`. -/
theorem after_request_unmatched_sentinel_cex :
    ((after_request 1 { method := "GET", endpoint := none, start_time := some 0 }
        { status_code := 404 } initialMetrics).2.requestCount =
      [(("GET", "unknown", 404), 1)]) ∧
    ((after_request 1 { method := "GET", endpoint := none, start_time := some 0 }
        { status_code := 404 } initialMetrics).2.requestDuration =
      [(("GET", "unknown"), [1])]) ∧
    "unknown" ≠ "unmatched" := by
  refine ⟨?_, ?_, by decide⟩ <;>
    norm_num [after_request, initialMetrics, endpointLabel, incCounter, observeHistogram]

/-- C5 amended: on request exit with no matched route, the latency
observation and the request count are recorded under the sentinel route label
`"unknown"`. -/
theorem after_request_unmatched_sentinel (now t : ℚ) (req : RequestCtx)
    (resp : Response) (s : MetricsState) (hst : req.start_time = some t)
    (hep : req.endpoint = none) :
    (after_request now req resp s).2.requestCount =
      incCounter (req.method, "unknown", resp.status_code) s.requestCount ∧
    (after_request now req resp s).2.requestDuration =
      observeHistogram (req.method, "unknown") (now - t) s.requestDuration := by
  simp [after_request, hst, hep, endpointLabel]

/-- Witness for the amended C5 at a concrete 404 request. -/
theorem after_request_unmatched_sentinel_witness :
    (after_request 2 { method := "GET", endpoint := none, start_time := some 1 }
        { status_code := 404 } initialMetrics).2.requestCount =
      incCounter ("GET", "unknown", 404) initialMetrics.requestCount ∧
    (after_request 2 { method := "GET", endpoint := none, start_time := some 1 }
        { status_code := 404 } initialMetrics).2.requestDuration =
      observeHistogram ("GET", "unknown") (2 - 1) initialMetrics.requestDuration :=
  after_request_unmatched_sentinel 2 1
    { method := "GET", endpoint := none, start_time := some 1 }
    { status_code := 404 } initialMetrics rfl rfl

/-- C6 counterexample: two responses of the same status class (400 and 404)
produce different counter children, so the counter's status label is the
exact status code, not the status class the claim states. -/
theorem request_count_status_class_cex :
    statusClass 400 = statusClass 404 ∧
    (after_request 1 { method := "GET", endpoint := some "index", start_time := some 0 }
        { status_code := 404 } initialMetrics).2.requestCount ≠
      (after_request 1 { method := "GET", endpoint := some "index", start_time := some 0 }
        { status_code := 400 } initialMetrics).2.requestCount := by
  decide

/-- C6 amended: for every completed request the counter incremented by the
exit hook is keyed by (method, route, exact numeric status code of the final
response). -/
theorem request_count_exact_status (now t : ℚ) (req : RequestCtx)
    (resp : Response) (s : MetricsState) (hst : req.start_time = some t) :
    (after_request now req resp s).2.requestCount =
      incCounter (req.method, endpointLabel req.endpoint, resp.status_code)
        s.requestCount := by
  simp [after_request, hst]

/-- Witness for the amended C6 at a concrete request. -/
theorem request_count_exact_status_witness :
    (after_request 1 { method := "GET", endpoint := some "index", start_time := some 0 }
        { status_code := 200 } initialMetrics).2.requestCount =
      incCounter ("GET", endpointLabel (some "index"), 200)
        initialMetrics.requestCount :=
  request_count_exact_status 1 0
    { method := "GET", endpoint := some "index", start_time := some 0 }
    { status_code := 200 } initialMetrics rfl

/-- C10: when the exit hook runs for a request whose entry hook never
recorded a start time, it records no latency observation and no request
count, passes the response through, and still decrements the in-flight gauge
unconditionally. -/
theorem after_request_no_start_time (now : ℚ) (req : RequestCtx)
    (resp : Response) (s : MetricsState) (hst : req.start_time = none) :
    after_request now req resp s =
      (resp, { s with activeRequests := s.activeRequests - 1 }) := by
  simp [after_request, hst]

/-- Witness for C10 at a concrete request that skipped `before_request`. -/
theorem after_request_no_start_time_witness :
    after_request 1 { method := "GET", endpoint := some "index", start_time := none }
        { status_code := 200 } initialMetrics =
      ({ status_code := 200 },
       { initialMetrics with activeRequests := initialMetrics.activeRequests - 1 }) :=
  after_request_no_start_time 1
    { method := "GET", endpoint := some "index", start_time := none }
    { status_code := 200 } initialMetrics rfl

/-- C1: the entry hook increments the in-flight gauge exactly once, the exit
hook decrements it exactly once whatever the response (error paths included);
consequently, over any interleaved trace in which each request's exit follows
its own single enter, the gauge stays nonnegative at every point and is back
to exactly 0 once every entered request has exited. -/
theorem inflight_gauge_invariant :
    (∀ (now : ℚ) (req : RequestCtx) (s : MetricsState),
      ((before_request now req s).2).activeRequests = s.activeRequests + 1) ∧
    (∀ (now : ℚ) (req : RequestCtx) (resp : Response) (s : MetricsState),
      ((after_request now req resp s).2).activeRequests = s.activeRequests - 1) ∧
    (∀ tr : List Ev, WfTrace tr = true →
      (∀ n, 0 ≤ traceGauge 0 (tr.take n)) ∧
      (enterIds tr ⊆ exitIds tr → traceGauge 0 tr = 0)) := by
  refine ⟨fun now req s => rfl, fun now req resp s => ?_, fun tr hwf => ⟨?_, ?_⟩⟩
  · cases hst : req.start_time <;> simp [after_request, hst]
  · intro n
    have h := wfFrom_nonneg tr [] [] hwf (by simp) List.nodup_nil List.nodup_nil n
    simpa using h
  · intro hcomp
    obtain ⟨h1, h2, h3⟩ :=
      wfFrom_ids tr [] [] hwf List.nodup_nil List.nodup_nil (by simp)
    simp only [List.nil_append] at h1 h2 h3
    have hle1 : (exitIds tr).length ≤ (enterIds tr).length := (h2.subperm h3).length_le
    have hle2 : (enterIds tr).length ≤ (exitIds tr).length := (h1.subperm hcomp).length_le
    have hg := traceGauge_eq tr 0
    omega

/-- Witness for C1 on the concrete interleaving enter 0, enter 1, exit 1,
exit 0. -/
theorem inflight_gauge_invariant_witness :
    0 ≤ traceGauge 0 ([Ev.enter 0, Ev.enter 1, Ev.exit 1, Ev.exit 0].take 3) ∧
    traceGauge 0 [Ev.enter 0, Ev.enter 1, Ev.exit 1, Ev.exit 0] = 0 := by
  have h := inflight_gauge_invariant.2.2
    [Ev.enter 0, Ev.enter 1, Ev.exit 1, Ev.exit 0] (by decide)
  exact ⟨h.1 3, h.2 (by decide)⟩

/-- C8: a request whose path matches no registered route is answered with
status 404 and a JSON body whose error field is `"Not Found"` and whose path
field echoes the requested path. -/
theorem unmatched_route_404 (handlers : String → HttpRequest → HttpResponse)
    (timestamp : String) (req : HttpRequest)
    (h : routeEndpoint req.path = none) :
    (dispatch handlers timestamp req).status_code = 404 ∧
    jsonField (dispatch handlers timestamp req).body "error" = some "Not Found" ∧
    jsonField (dispatch handlers timestamp req).body "path" = some req.path := by
  simp only [dispatch, h]
  exact ⟨rfl, rfl, rfl⟩

/-- Witness for C8 at the path `/nonexistent-endpoint`. -/
theorem unmatched_route_404_witness :
    (dispatch (fun _ _ => { status_code := 200, body := Body.text "" }) "2024-01-01"
        { method := "GET", path := "/nonexistent-endpoint" }).status_code = 404 ∧
    jsonField (dispatch (fun _ _ => { status_code := 200, body := Body.text "" }) "2024-01-01"
        { method := "GET", path := "/nonexistent-endpoint" }).body "error" = some "Not Found" ∧
    jsonField (dispatch (fun _ _ => { status_code := 200, body := Body.text "" }) "2024-01-01"
        { method := "GET", path := "/nonexistent-endpoint" }).body "path" =
      some "/nonexistent-endpoint" :=
  unmatched_route_404 (fun _ _ => { status_code := 200, body := Body.text "" })
    "2024-01-01" { method := "GET", path := "/nonexistent-endpoint" } (by decide)

/-- C9: scraping is read-only — two consecutive `exportMetrics` calls with no
intervening mutation leave the registry unchanged and produce identical
exposition output, counters, gauges and histogram values included. -/
theorem export_idempotent (s : MetricsState) :
    (exportMetrics (exportMetrics s).2).1 = (exportMetrics s).1 ∧
    (exportMetrics (exportMetrics s).2).2 = (exportMetrics s).2 :=
  ⟨rfl, rfl⟩
